import Mathlib

/-!
Shallow embedding of the book-catalog controllers of
`src/controller/books-controller.js` (hapi-bookshelf-api).

The controllers operate on one in-memory array of book records.  We model
the array as a `List Book`, a request payload as a `BookPayload` whose
fields are `Option`-typed (a JavaScript payload field may be `undefined`),
timestamps as natural numbers (the code only ever copies and refreshes
them), and the generated `nanoid` as an explicit `id : String` parameter.
Each controller becomes a pure function from the current collection (and
the request data) to a typed outcome together with the new collection.
-/

namespace Bookshelf

/-! ### JavaScript numeric coercion, for the query filters

`getAllBooksController` coerces the `reading` / `finished` query strings
with `!!Number(s)`.  We embed ECMAScript `ToNumber` on strings exactly for
the decimal / hex / octal / binary / `Infinity` grammars; a parsed decimal
literal is carried exactly as `mantissa × 10 ^ exponent` (only zero-ness of
the value is ever consumed, via `!!`, so IEEE rounding is irrelevant). -/

/-- Result of the JavaScript `Number(string)` conversion: not-a-number, a
signed infinity, or the exact value `mantissa * 10 ^ exp10`. -/
inductive JsNumber where
  | nan : JsNumber
  | inf (neg : Bool) : JsNumber
  | val (mantissa : Int) (exp10 : Int) : JsNumber
deriving DecidableEq, Repr

/-- ECMAScript `StrWhiteSpace` characters (the ones trimmed by `ToNumber`);
we cover the ASCII ones plus NBSP and ZWNBSP. -/
def isStrWhite (c : Char) : Bool :=
  c = ' ' || c = '\t' || c = '\n' || c = '\r' ||
    c.toNat = 11 || c.toNat = 12 || c.toNat = 0xA0 || c.toNat = 0xFEFF

/-- Decimal digit test. -/
def isDigitChar (c : Char) : Bool := '0' ≤ c && c ≤ '9'

/-- Hexadecimal digit test. -/
def isHexChar (c : Char) : Bool :=
  isDigitChar c || ('a' ≤ c && c ≤ 'f') || ('A' ≤ c && c ≤ 'F')

/-- Octal digit test. -/
def isOctChar (c : Char) : Bool := '0' ≤ c && c ≤ '7'

/-- Binary digit test. -/
def isBinChar (c : Char) : Bool := c = '0' || c = '1'

/-- Numeric value of a digit character in any of the radices above. -/
def digitValue (c : Char) : Nat :=
  if isDigitChar c then c.toNat - 48
  else if 'a' ≤ c && c ≤ 'f' then c.toNat - 87
  else c.toNat - 55

/-- Value of a digit string in radix `r` (most significant digit first). -/
def radixToNat (r : Nat) (l : List Char) : Nat :=
  l.foldl (fun a c => r * a + digitValue c) 0

/-- Parse the ECMAScript `StrUnsignedDecimalLiteral` grammar (without the
`Infinity` production): `Digits [. Digits] [ExponentPart]` or
`. Digits [ExponentPart]`.  Returns the exact value as
`(mantissa, exp10)`, or `none` when the characters do not match the
grammar exactly. -/
def parseDecTail (l : List Char) : Option (Int × Int) :=
  let ip := l.takeWhile isDigitChar
  let r1 := l.dropWhile isDigitChar
  let fp := match r1 with
    | '.' :: t => t.takeWhile isDigitChar
    | _ => []
  let r2 := match r1 with
    | '.' :: t => t.dropWhile isDigitChar
    | _ => r1
  if ip = [] ∧ fp = [] then none
  else
    let mantissa : Int := (radixToNat 10 ip * 10 ^ fp.length + radixToNat 10 fp : Nat)
    match r2 with
    | 'e' :: t | 'E' :: t =>
      let esign : Int := match t with
        | '-' :: _ => -1
        | _ => 1
      let t2 := match t with
        | '+' :: u => u
        | '-' :: u => u
        | _ => t
      let ed := t2.takeWhile isDigitChar
      if ed = [] ∨ t2.dropWhile isDigitChar ≠ [] then none
      else some (mantissa, esign * radixToNat 10 ed - fp.length)
    | [] => some (mantissa, -(fp.length : Int))
    | _ => none

/-- Parse an optionally signed decimal literal or `Infinity`
(`StrDecimalLiteral`). -/
def parseSigned (l : List Char) : JsNumber :=
  let neg := match l with
    | '-' :: _ => true
    | _ => false
  let body := match l with
    | '+' :: t => t
    | '-' :: t => t
    | _ => l
  if body = "Infinity".data then .inf neg
  else
    match parseDecTail body with
    | some (m, e) => .val (if neg then -m else m) e
    | none => .nan

/-- Parse a radix-prefixed literal (`0x…`, `0o…`, `0b…`): every remaining
character must be a digit of the radix and at least one digit is required. -/
def parseRadix (good : Char → Bool) (r : Nat) (rest : List Char) : JsNumber :=
  if rest ≠ [] ∧ rest.all good then .val (radixToNat r rest) 0 else .nan

/-- ECMAScript `ToNumber` on a string: trim whitespace, the empty string is
`+0`, then the `StrNumericLiteral` grammar, and `NaN` otherwise. -/
def stringToNumber (s : String) : JsNumber :=
  let l := ((s.data.dropWhile isStrWhite).reverse.dropWhile isStrWhite).reverse
  match l with
  | [] => .val 0 0
  | '0' :: c :: rest =>
    if c = 'x' ∨ c = 'X' then parseRadix isHexChar 16 rest
    else if c = 'o' ∨ c = 'O' then parseRadix isOctChar 8 rest
    else if c = 'b' ∨ c = 'B' then parseRadix isBinChar 2 rest
    else parseSigned l
  | _ => parseSigned l

/-- JavaScript boolean coercion `!!n` of a number: `false` exactly on `NaN`
and `±0`. -/
def jsTruthy : JsNumber → Bool
  | .nan => false
  | .inf _ => true
  | .val m _ => m ≠ 0

/-- The composite coercion `!!Number(s)` applied by the query filters of
`getAllBooksController`. -/
def queryBool (s : String) : Bool := jsTruthy (stringToNumber s)

/-! ### The data model -/

/-- A record of the `books` array.  In JavaScript every field of a pushed
object may be `undefined` (it is whatever the payload held), so the
caller-supplied fields are `Option`-typed; `id`, `finished`, `insertedAt`
and `updatedAt` are always set by the controllers themselves. -/
structure Book where
  id : String
  name : Option String
  year : Option Int
  author : Option String
  summary : Option String
  publisher : Option String
  pageCount : Option Int
  readPage : Option Int
  finished : Bool
  reading : Option Bool
  insertedAt : Nat
  updatedAt : Nat
deriving DecidableEq, Repr

/-- The fields destructured from `request.payload` by the create and
update controllers; any of them may be absent (`undefined`). -/
structure BookPayload where
  name : Option String
  year : Option Int
  author : Option String
  summary : Option String
  publisher : Option String
  pageCount : Option Int
  readPage : Option Int
  reading : Option Bool
deriving DecidableEq, Repr

/-- JavaScript `a < b` on number-or-undefined operands: any comparison
involving `undefined` (which converts to `NaN`) is `false`. -/
def jsLt : Option Int → Option Int → Bool
  | some a, some b => a < b
  | _, _ => false

/-- JavaScript strict equality `a === b` on number-or-undefined operands:
`undefined === undefined` is `true`, `undefined === n` is `false`. -/
def jsStrictEqNum : Option Int → Option Int → Bool
  | none, none => true
  | some a, some b => a = b
  | _, _ => false

/-! ### create (`addBookController`) -/

/-- Outcome of `addBookController`, keyed by HTTP status: 400 for the two
validation failures, 201 with the new id on success, and the 500
fall-through reached when the post-push retrievability check fails. -/
inductive AddResult where
  | missingName : AddResult
  | pageExceeded : AddResult
  | created (bookId : String) : AddResult
  | insertionFailed : AddResult
deriving DecidableEq, Repr

/-- `addBookController`: reject when `name === undefined`, reject when
`pageCount < readPage`, otherwise build the record with
`finished = (pageCount === readPage)` and `insertedAt = updatedAt = now`,
push it, and report success iff a record with the new id is retrievable. -/
def addBook (books : List Book) (p : BookPayload) (id : String) (now : Nat) :
    AddResult × List Book :=
  match p.name with
  | none => (.missingName, books)
  | some nm =>
    if jsLt p.pageCount p.readPage then (.pageExceeded, books)
    else
      let finished := jsStrictEqNum p.pageCount p.readPage
      let newBook : Book :=
        { id := id, name := some nm, year := p.year, author := p.author,
          summary := p.summary, publisher := p.publisher,
          pageCount := p.pageCount, readPage := p.readPage,
          finished := finished, reading := p.reading,
          insertedAt := now, updatedAt := now }
      let books2 := books ++ [newBook]
      if 0 < (books2.filter (fun b => b.id = id)).length then
        (.created id, books2)
      else
        (.insertionFailed, books2)

/-! ### list (`getAllBooksController`) -/

/-- The query parameters destructured from `request.query`; each arrives
as a raw string when supplied. -/
structure ListQuery where
  name : Option String
  reading : Option String
  finished : Option String
deriving DecidableEq, Repr

/-- The reduced projection `{ id, name, publisher }` returned per matching
record by the list controller. -/
structure BookSummary where
  id : String
  name : Option String
  publisher : Option String
deriving DecidableEq, Repr

/-- Substring containment on character lists, embedding JavaScript
`String.includes` (an empty needle is contained in anything). -/
def charsContain (hay sub : List Char) : Bool :=
  match hay with
  | [] => sub.isEmpty
  | _ :: t => sub.isPrefixOf hay || charsContain t sub

/-- JavaScript `hay.toLowerCase().includes(sub.toLowerCase())` (ASCII
lowercasing, which coincides with JavaScript on the ASCII range). -/
def strIncludesLower (hay sub : String) : Bool :=
  charsContain (hay.data.map Char.toLower) (sub.data.map Char.toLower)

/-- The name filter of `getAllBooksController`:
`book.name.toLowerCase().includes(name.toLowerCase())`.  Evaluating it on a
record whose `name` is `undefined` throws a `TypeError` (modelled as
`none`), which the controller surfaces as a 500; `Array.filter` evaluates
left to right, so the first offending record aborts the scan. -/
def filterByName : List Book → String → Option (List Book)
  | [], _ => some []
  | b :: rest, pat =>
    match b.name with
    | none => none
    | some nm =>
      match filterByName rest pat with
      | none => none
      | some fr =>
        some (if strIncludesLower nm pat then b :: fr else fr)

/-- `getAllBooksController`: apply the three optional filters in order
(name as case-insensitive containment, `reading` and `finished` by strict
equality against `!!Number(query)`), then project each surviving record to
its summary.  `none` is the caught-exception (500) outcome. -/
def getAllBooks (books : List Book) (q : ListQuery) : Option (List BookSummary) :=
  match (match q.name with
         | none => some books
         | some pat => filterByName books pat) with
  | none => none
  | some l1 =>
    let l2 := match q.reading with
      | none => l1
      | some s => l1.filter (fun b => b.reading = some (queryBool s))
    let l3 := match q.finished with
      | none => l2
      | some s => l2.filter (fun b => b.finished = queryBool s)
    some (l3.map (fun b => { id := b.id, name := b.name, publisher := b.publisher }))

/-- The summary projection, named for use in specification statements. -/
def summaryOf (b : Book) : BookSummary :=
  { id := b.id, name := b.name, publisher := b.publisher }

/-- Modelled from the spec: a record matches a filter combination when it
satisfies the conjunction of all supplied filters — case-insensitive
substring containment for `name`, boolean equality (after the `!!Number`
normalisation of the raw query string) for `reading` and `finished` — and
absent filters impose no constraint. -/
def specMatches (q : ListQuery) (b : Book) : Bool :=
  (match q.name with
   | none => true
   | some pat => strIncludesLower (b.name.getD "") pat) &&
  (match q.reading with
   | none => true
   | some s => b.reading = some (queryBool s)) &&
  (match q.finished with
   | none => true
   | some s => b.finished = queryBool s)

/-! ### getById (`getBookByIdController`) -/

/-- `getBookByIdController`: `books.filter((book) => book.id === id)[0]`,
where indexing an empty result gives `undefined` (the 404 outcome). -/
def getBookById (books : List Book) (id : String) : Option Book :=
  (books.filter (fun b => b.id = id)).head?

/-! ### update (`editBookByIdController`) -/

/-- Outcome of `editBookByIdController`: 404, the two 400 validations, or
the 200 success. -/
inductive EditResult where
  | notFound : EditResult
  | missingName : EditResult
  | pageExceeded : EditResult
  | updated : EditResult
deriving DecidableEq, Repr

/-- Replace the record at the first index whose `id` matches, embedding
`index = findIndex(...)` followed by the assignment `books[index] = ...`. -/
def replaceFirst (books : List Book) (id : String) (f : Book → Book) : List Book :=
  match books with
  | [] => []
  | b :: rest => if b.id = id then f b :: rest else b :: replaceFirst rest id f

/-- The replacement object `{ ...books[index], name, year, …, updatedAt }`
built by the update controller: the spread keeps `id` and `insertedAt`
(the only fields not overwritten), every listed field is overwritten with
the payload value, `finished` is recomputed and `updatedAt` refreshed. -/
def updatedBook (p : BookPayload) (nm : String) (now : Nat) (old : Book) : Book :=
  { old with
    name := some nm, year := p.year, author := p.author,
    summary := p.summary, publisher := p.publisher,
    pageCount := p.pageCount, readPage := p.readPage,
    finished := jsStrictEqNum p.pageCount p.readPage,
    reading := p.reading, updatedAt := now }

/-- `editBookByIdController`: look up the index by id (`findIndex !== -1`
is existence), then validate `name` and `pageCount < readPage` as in
create, then overwrite the record in place. -/
def editBookById (books : List Book) (id : String) (p : BookPayload) (now : Nat) :
    EditResult × List Book :=
  if books.any (fun b => b.id = id) then
    match p.name with
    | none => (.missingName, books)
    | some nm =>
      if jsLt p.pageCount p.readPage then (.pageExceeded, books)
      else (.updated, replaceFirst books id (updatedBook p nm now))
  else (.notFound, books)

/-! ### delete (`deleteBookByIdController`) -/

/-- Outcome of `deleteBookByIdController`: 200 or 404. -/
inductive DeleteResult where
  | deleted : DeleteResult
  | notFound : DeleteResult
deriving DecidableEq, Repr

/-- `deleteBookByIdController`: find the first index whose `id` matches and
`splice` that one element out; 404 when `findIndex` gives `-1`. -/
def deleteBookById (books : List Book) (id : String) : DeleteResult × List Book :=
  match books with
  | [] => (.notFound, [])
  | b :: rest =>
    if b.id = id then (.deleted, rest)
    else
      let r := deleteBookById rest id
      (r.1, b :: r.2)

/-- The invariant of claim C10: every stored record has a defined `name`. -/
def namesDefined (books : List Book) : Prop :=
  ∀ b ∈ books, (b.name).isSome

instance (books : List Book) : Decidable (namesDefined books) := by
  unfold namesDefined; infer_instance

/-! ### Theorems -/

/-- A sample valid payload used by concrete witnesses. -/
def samplePayload : BookPayload :=
  { name := some "Bumi Manusia", year := some 1980, author := some "Pram",
    summary := none, publisher := some "Hasta Mitra",
    pageCount := some 100, readPage := some 50, reading := some false }

/-- C1: for every create input whose `name` is defined and whose
`readPage` does not exceed `pageCount`, create succeeds: it appends
exactly one new record, whose `finished` field equals
`readPage == pageCount` and whose `insertedAt` equals its `updatedAt`,
and returns that record's id — the `InsertionFailed` 500 fall-through is
never taken for such inputs. -/
theorem create_valid_succeeds (books : List Book) (p : BookPayload) (id : String)
    (now : Nat) (nm : String) (pc rp : Int) (hn : p.name = some nm)
    (hpc : p.pageCount = some pc) (hrp : p.readPage = some rp) (hle : rp ≤ pc) :
    addBook books p id now =
      (.created id,
       books ++ [{ id := id, name := some nm, year := p.year, author := p.author,
                   summary := p.summary, publisher := p.publisher,
                   pageCount := some pc, readPage := some rp,
                   finished := decide (rp = pc), reading := p.reading,
                   insertedAt := now, updatedAt := now }]) := by
  have hlt : jsLt (some pc) (some rp) = false := by
    simp [jsLt]; omega
  have heq : jsStrictEqNum (some pc) (some rp) = decide (rp = pc) := by
    simp [jsStrictEqNum, eq_comm]
  simp [addBook, hn, hpc, hrp, hlt, heq, List.filter_append]

/-- Witness for C1 at a concrete valid payload. -/
theorem create_valid_succeeds_witness :
    addBook [] samplePayload "idA" 5 =
      (.created "idA",
       [{ id := "idA", name := some "Bumi Manusia", year := some 1980,
          author := some "Pram", summary := none, publisher := some "Hasta Mitra",
          pageCount := some 100, readPage := some 50, finished := false,
          reading := some false, insertedAt := 5, updatedAt := 5 }]) := by
  have h := create_valid_succeeds [] samplePayload "idA" 5 "Bumi Manusia" 100 50
    rfl rfl rfl (by decide)
  simpa using h

/-- C9 (implicit): create with a defined name but with both `pageCount`
and `readPage` absent passes validation (the `pageCount < readPage` guard
is `false` on `undefined` operands) and stores the record with
`finished = true` (since `undefined === undefined`). -/
theorem create_no_pages_finished (books : List Book) (p : BookPayload) (id : String)
    (now : Nat) (nm : String) (hn : p.name = some nm)
    (hpc : p.pageCount = none) (hrp : p.readPage = none) :
    addBook books p id now =
      (.created id,
       books ++ [{ id := id, name := some nm, year := p.year, author := p.author,
                   summary := p.summary, publisher := p.publisher,
                   pageCount := none, readPage := none,
                   finished := true, reading := p.reading,
                   insertedAt := now, updatedAt := now }]) := by
  have hlt : jsLt (none : Option Int) none = false := rfl
  have heq : jsStrictEqNum (none : Option Int) none = true := rfl
  simp [addBook, hn, hpc, hrp, hlt, heq, List.filter_append]

/-- Witness for C9 at a concrete pageless payload. -/
theorem create_no_pages_finished_witness :
    addBook [] { samplePayload with pageCount := none, readPage := none } "idB" 7 =
      (.created "idB",
       [{ id := "idB", name := some "Bumi Manusia", year := some 1980,
          author := some "Pram", summary := none, publisher := some "Hasta Mitra",
          pageCount := none, readPage := none, finished := true,
          reading := some false, insertedAt := 7, updatedAt := 7 }]) := by
  have h := create_no_pages_finished []
    { samplePayload with pageCount := none, readPage := none } "idB" 7
    "Bumi Manusia" rfl rfl rfl
  simpa using h

/-- A sample stored record used by concrete witnesses. -/
def sampleBook : Book :=
  { id := "idA", name := some "Bumi Manusia", year := some 1980,
    author := some "Pram", summary := none, publisher := some "Hasta Mitra",
    pageCount := some 100, readPage := some 50, finished := false,
    reading := some false, insertedAt := 5, updatedAt := 5 }

/-- A payload with no name. -/
def payloadNoName : BookPayload :=
  { name := none, year := none, author := none, summary := none,
    publisher := none, pageCount := some 1, readPage := some 5, reading := none }

/-- A payload with a name but `readPage > pageCount`. -/
def payloadExceeds : BookPayload :=
  { name := some "X", year := none, author := none, summary := none,
    publisher := none, pageCount := some 1, readPage := some 5, reading := none }

/-- C2 counterexample: a create input can have `readPage > pageCount` and
still not fail with `PageCountExceeded` — when `name` is also absent the
`MissingName` check fires first, so the claim as stated is false at this
input. -/
theorem create_pageExceeded_shadowed :
    jsLt payloadNoName.pageCount payloadNoName.readPage = true ∧
    (addBook [] payloadNoName "idC" 0).1 = AddResult.missingName ∧
    AddResult.missingName ≠ AddResult.pageExceeded := by decide

/-- C2 (amended): create with `name` absent fails with `MissingName`; a
create, or an update of an existing id, whose `name` is defined and whose
`readPage` exceeds `pageCount` fails with `PageCountExceeded`; every such
rejection leaves the collection exactly as it was. -/
theorem validation_rejections (books : List Book) (p : BookPayload) (id : String)
    (now : Nat) :
    (p.name = none → addBook books p id now = (.missingName, books)) ∧
    (∀ nm pc rp, p.name = some nm → p.pageCount = some pc → p.readPage = some rp →
      pc < rp → addBook books p id now = (.pageExceeded, books)) ∧
    (∀ nm pc rp, p.name = some nm → p.pageCount = some pc → p.readPage = some rp →
      pc < rp → books.any (fun b => b.id = id) = true →
      editBookById books id p now = (.pageExceeded, books)) := by
  refine ⟨fun hn => by simp [addBook, hn], ?_, ?_⟩
  · intro nm pc rp hn hpc hrp hlt
    have h : jsLt (some pc) (some rp) = true := by simp [jsLt, hlt]
    simp [addBook, hn, hpc, hrp, h]
  · intro nm pc rp hn hpc hrp hlt hex
    have h : jsLt (some pc) (some rp) = true := by simp [jsLt, hlt]
    simp [editBookById, hex, hn, hpc, hrp, h]

/-- Witness for C2 (amended) at concrete inputs. -/
theorem validation_rejections_witness :
    addBook [] payloadNoName "w1" 0 = (.missingName, []) ∧
    addBook [] payloadExceeds "w1" 0 = (.pageExceeded, []) ∧
    editBookById [sampleBook] "idA" payloadExceeds 9 = (.pageExceeded, [sampleBook]) :=
  ⟨(validation_rejections [] payloadNoName "w1" 0).1 rfl,
   (validation_rejections [] payloadExceeds "w1" 0).2.1 "X" 1 5 rfl rfl rfl (by decide),
   (validation_rejections [sampleBook] payloadExceeds "idA" 9).2.2 "X" 1 5
     rfl rfl rfl (by decide) (by decide)⟩

/-- C5: update of an id absent from the collection returns `NotFound` and
leaves the collection unchanged, regardless of the payload — existence is
checked before any validation, so validation errors are only reported for
an id that exists. -/
theorem update_unknown_id_notFound (books : List Book) (id : String)
    (p : BookPayload) (now : Nat) (h : books.any (fun b => b.id = id) = false) :
    editBookById books id p now = (.notFound, books) := by
  simp [editBookById, h]

/-- Witness for C5: an unknown id with an otherwise-invalid payload. -/
theorem update_unknown_id_notFound_witness :
    editBookById [sampleBook] "zzz" payloadNoName 3 = (.notFound, [sampleBook]) :=
  update_unknown_id_notFound [sampleBook] "zzz" payloadNoName 3 (by decide)

/-- C8: delete of an id absent from the collection returns `NotFound` with
the collection (in particular its size) unchanged; delete of a present id
removes exactly the first matching record and leaves every other record
untouched. -/
theorem delete_spec :
    (∀ (books : List Book) (id : String), books.any (fun b => b.id = id) = false →
      deleteBookById books id = (.notFound, books)) ∧
    (∀ (pre post : List Book) (old : Book) (id : String),
      (∀ b ∈ pre, b.id ≠ id) → old.id = id →
      deleteBookById (pre ++ old :: post) id = (.deleted, pre ++ post)) := by
  constructor
  · intro books id h
    induction books with
    | nil => rfl
    | cons b rest ih =>
      rw [List.any_cons] at h
      have hb : (b.id = id) = False := by
        simp only [Bool.or_eq_false_iff] at h
        simpa using h.1
      have hr := by
        simp only [Bool.or_eq_false_iff] at h
        exact h.2
      simp [deleteBookById, hb, ih hr]
  · intro pre post old id hpre hold
    induction pre with
    | nil => simp [deleteBookById, hold]
    | cons b rest ih =>
      have hb : (b.id = id) = False := by simp [hpre b (by simp)]
      have ih2 := ih (fun x hx => hpre x (by simp [hx]))
      simp [deleteBookById, hb, ih2]

/-- Witness for C8 at a concrete one-record collection. -/
theorem delete_spec_witness :
    deleteBookById [sampleBook] "zzz" = (.notFound, [sampleBook]) ∧
    deleteBookById [sampleBook] "idA" = (.deleted, []) :=
  ⟨delete_spec.1 [sampleBook] "zzz" (by decide),
   by
     have h := delete_spec.2 [] [] sampleBook "idA" (by simp) rfl
     simpa using h⟩

/-- Replacing at the first matching index: the prefix without a match and
the suffix are untouched, the first match is rewritten. -/
theorem replaceFirst_append_cons (pre post : List Book) (old : Book) (id : String)
    (f : Book → Book) (hpre : ∀ b ∈ pre, b.id ≠ id) (hold : old.id = id) :
    replaceFirst (pre ++ old :: post) id f = pre ++ f old :: post := by
  induction pre with
  | nil => simp [replaceFirst, hold]
  | cons b rest ih =>
    have hb : (b.id = id) = False := by simp [hpre b (by simp)]
    have ih2 := ih (fun x hx => hpre x (by simp [hx]))
    simp [replaceFirst, hb, ih2]

/-- C6: a successful update of an existing record keeps its `id` and
`insertedAt`, overwrites every other field with the new candidate values
(absent optional payload fields overwrite with `undefined` rather than
being skipped), recomputes `finished = (pageCount === readPage)`, sets
`updatedAt` to the current time, and leaves every other record of the
collection unchanged. -/
theorem update_success_frame (pre post : List Book) (old : Book) (p : BookPayload)
    (id : String) (now : Nat) (nm : String) (hpre : ∀ b ∈ pre, b.id ≠ id)
    (hold : old.id = id) (hn : p.name = some nm)
    (hv : jsLt p.pageCount p.readPage = false) :
    editBookById (pre ++ old :: post) id p now =
      (.updated,
       pre ++ { id := old.id, name := some nm, year := p.year, author := p.author,
                summary := p.summary, publisher := p.publisher,
                pageCount := p.pageCount, readPage := p.readPage,
                finished := jsStrictEqNum p.pageCount p.readPage,
                reading := p.reading, insertedAt := old.insertedAt,
                updatedAt := now } :: post) := by
  have hex : (pre ++ old :: post).any (fun b => b.id = id) = true :=
    List.any_eq_true.mpr ⟨old, by simp, by simp [hold]⟩
  have hrep := replaceFirst_append_cons pre post old id (updatedBook p nm now) hpre hold
  simp [editBookById, hex, hn, hv, hrep, updatedBook]

/-- Witness for C6 at a concrete two-record collection. -/
theorem update_success_frame_witness :
    editBookById [sampleBook, { sampleBook with id := "idB" }] "idB" samplePayload 9 =
      (.updated,
       [sampleBook,
        { id := "idB", name := some "Bumi Manusia", year := some 1980,
          author := some "Pram", summary := none, publisher := some "Hasta Mitra",
          pageCount := some 100, readPage := some 50, finished := false,
          reading := some false, insertedAt := 5, updatedAt := 9 }]) := by
  have h := update_success_frame [sampleBook] [] { sampleBook with id := "idB" }
    samplePayload "idB" 9 "Bumi Manusia" (by decide) rfl rfl (by decide)
  simpa using h

/-- The record pushed by a successful `addBookController` call. -/
def newBookOf (p : BookPayload) (nm : String) (id : String) (now : Nat) : Book :=
  { id := id, name := some nm, year := p.year, author := p.author,
    summary := p.summary, publisher := p.publisher,
    pageCount := p.pageCount, readPage := p.readPage,
    finished := jsStrictEqNum p.pageCount p.readPage, reading := p.reading,
    insertedAt := now, updatedAt := now }

/-- Evaluation of `addBook` on any input passing both validations. -/
theorem addBook_eq (books : List Book) (p : BookPayload) (id : String) (now : Nat)
    (nm : String) (hn : p.name = some nm)
    (hv : jsLt p.pageCount p.readPage = false) :
    addBook books p id now = (.created id, books ++ [newBookOf p nm id now]) := by
  simp [addBook, hn, hv, newBookOf, List.filter_append]

/-- C7: creating a valid book under a fresh id, reading it back, updating
it with the same field values, and reading it back again yields the same
record except for `updatedAt`. -/
theorem create_update_round_trip (books : List Book) (p : BookPayload) (id : String)
    (now now2 : Nat) (nm : String)
    (hfresh : books.any (fun b => b.id = id) = false)
    (hn : p.name = some nm) (hv : jsLt p.pageCount p.readPage = false) :
    ∃ r1 : Book,
      getBookById (addBook books p id now).2 id = some r1 ∧
      getBookById (editBookById (addBook books p id now).2 id p now2).2 id =
        some { r1 with updatedAt := now2 } := by
  have hnomatch : ∀ b ∈ books, ¬(b.id = id) := by
    intro b hb
    have := List.any_eq_false.mp hfresh b hb
    simpa using this
  have hfilter : books.filter (fun b => b.id = id) = [] :=
    List.filter_eq_nil_iff.mpr (by intro a ha; simpa using hnomatch a ha)
  rw [addBook_eq books p id now nm hn hv]
  refine ⟨newBookOf p nm id now, ?_, ?_⟩
  · simp [getBookById, List.filter_append, hfilter, newBookOf]
  · have hex : (books ++ [newBookOf p nm id now]).any (fun b => b.id = id) = true :=
      List.any_eq_true.mpr ⟨newBookOf p nm id now, by simp, by simp [newBookOf]⟩
    have hrep := replaceFirst_append_cons books [] (newBookOf p nm id now) id
      (updatedBook p nm now2) (fun b hb => hnomatch b hb) (by simp [newBookOf])
    have hub : updatedBook p nm now2 (newBookOf p nm id now) =
        { newBookOf p nm id now with updatedAt := now2 } := rfl
    simp only [editBookById, hex, if_true, hn, hv, Bool.false_eq_true, if_false, hrep, hub]
    simp [getBookById, List.filter_append, hfilter, newBookOf]

/-- Witness for C7 at a concrete valid payload and fresh id. -/
theorem create_update_round_trip_witness :
    ∃ r1 : Book,
      getBookById (addBook [] samplePayload "idA" 5).2 "idA" = some r1 ∧
      getBookById (editBookById (addBook [] samplePayload "idA" 5).2 "idA"
        samplePayload 9).2 "idA" = some { r1 with updatedAt := 9 } :=
  create_update_round_trip [] samplePayload "idA" 5 9 "Bumi Manusia" rfl rfl (by decide)

/-- On a collection whose names are all defined, the name filter never
throws and computes an ordinary `List.filter`. -/
theorem filterByName_eq (books : List Book) (pat : String)
    (h : namesDefined books) :
    filterByName books pat =
      some (books.filter (fun b => strIncludesLower (b.name.getD "") pat)) := by
  induction books with
  | nil => rfl
  | cons b rest ih =>
    obtain ⟨nm, hnm⟩ := Option.isSome_iff_exists.mp (h b (by simp))
    have ih2 := ih (fun x hx => h x (by simp [hx]))
    simp [filterByName, hnm, ih2, List.filter_cons]

/-- C3: on any collection of records with defined names (the only
collections the operations ever build, by C10) and any filter combination,
list succeeds and returns, in the insertion order of the collection, the
`{id, name, publisher}` projection of exactly the records satisfying the
conjunction of the supplied filters; when nothing matches the result is
the empty sequence. -/
theorem list_filters_spec (books : List Book) (q : ListQuery)
    (h : namesDefined books) :
    getAllBooks books q =
      some ((books.filter (fun b => specMatches q b)).map (fun b => summaryOf b)) := by
  obtain ⟨qn, qr, qf⟩ := q
  cases qn with
  | none =>
    cases qr <;> cases qf <;>
      simp [getAllBooks, specMatches, summaryOf, List.filter_filter, List.filter_true,
            Bool.and_comm, Bool.and_left_comm, Bool.and_assoc]
  | some pat =>
    have hname := filterByName_eq books pat h
    cases qr <;> cases qf <;>
      simp [getAllBooks, specMatches, summaryOf, hname, List.filter_filter,
            Bool.and_comm, Bool.and_left_comm, Bool.and_assoc]

/-- Witness for C3 at a concrete collection and filter. -/
theorem list_filters_spec_witness :
    getAllBooks [sampleBook] { name := some "MANU", reading := none, finished := some "0" } =
      some [{ id := "idA", name := some "Bumi Manusia", publisher := some "Hasta Mitra" }] := by
  have h := list_filters_spec [sampleBook]
    { name := some "MANU", reading := none, finished := some "0" } (by decide)
  rw [h]; decide

/-- A record currently being read, for the C4 counterexample. -/
def readingBook : Book := { sampleBook with reading := some true }

/-- C4 counterexample: the string `"true"` is not `"0"`, yet
`list` with `reading="true"` does not select a record whose `reading` is
`true` — `Number("true")` is `NaN`, which `!!` coerces to `false`, so the
filter compares against `false` and the record is excluded. -/
theorem reading_filter_true_string_cex :
    "true" ≠ "0" ∧ readingBook.reading = some true ∧
    getAllBooks [readingBook] { name := none, reading := some "true", finished := none } =
      some [] := by decide

/-- C4 (amended): a supplied `reading` (or `finished`) query string is
coerced with `!!Number(s)` before comparison: it counts as `true` exactly
when it parses as a nonzero number, so `"0"` is `false`, but so are
non-numeric strings such as `"true"` (via `NaN`), while `"1"` and `"2"`
are `true`; `list` with `reading=s` selects exactly the records whose
`reading` field equals the coerced boolean. -/
theorem reading_filter_numeric_coercion (books : List Book) (s : String) :
    getAllBooks books { name := none, reading := some s, finished := none } =
      some ((books.filter (fun b => b.reading = some (queryBool s))).map
        (fun b => summaryOf b)) ∧
    queryBool "0" = false ∧ queryBool "1" = true ∧
    queryBool "true" = false ∧ queryBool "2" = true := by
  refine ⟨rfl, by decide, by decide, by decide, by decide⟩

/-- Membership after `replaceFirst`: every record either was already in
the collection or is the image of one under the replacement. -/
theorem mem_replaceFirst (books : List Book) (id : String) (f : Book → Book)
    (b : Book) (hb : b ∈ replaceFirst books id f) :
    b ∈ books ∨ ∃ a ∈ books, b = f a := by
  induction books with
  | nil => simp [replaceFirst] at hb
  | cons x rest ih =>
    by_cases hx : x.id = id
    · simp [replaceFirst, hx] at hb
      rcases hb with hb | hb
      · exact Or.inr ⟨x, by simp, hb⟩
      · exact Or.inl (by simp [hb])
    · simp [replaceFirst, hx] at hb
      rcases hb with hb | hb
      · exact Or.inl (by simp [hb])
      · rcases ih hb with h1 | ⟨a, ha, hfa⟩
        · exact Or.inl (by simp [h1])
        · exact Or.inr ⟨a, by simp [ha], hfa⟩

/-- Membership after deletion: the surviving records all come from the
original collection. -/
theorem mem_delete (books : List Book) (id : String) (b : Book)
    (hb : b ∈ (deleteBookById books id).2) : b ∈ books := by
  induction books with
  | nil => simp [deleteBookById] at hb
  | cons x rest ih =>
    by_cases hx : x.id = id
    · simp [deleteBookById, hx] at hb
      simp [hb]
    · simp [deleteBookById, hx] at hb
      rcases hb with hb | hb
      · simp [hb]
      · simp [ih hb]

/-- C10 (implicit): every record ever stored has a defined `name` — the
empty initial collection satisfies this, and create, update and delete all
preserve it (the two writers reject an undefined name before writing, and
delete only removes records) — and on any such collection the list
operation never faults, whatever the filters. -/
theorem names_defined_invariant :
    namesDefined [] ∧
    (∀ (books : List Book) (p : BookPayload) (id : String) (now : Nat),
      namesDefined books → namesDefined (addBook books p id now).2) ∧
    (∀ (books : List Book) (id : String) (p : BookPayload) (now : Nat),
      namesDefined books → namesDefined (editBookById books id p now).2) ∧
    (∀ (books : List Book) (id : String),
      namesDefined books → namesDefined (deleteBookById books id).2) ∧
    (∀ (books : List Book) (q : ListQuery),
      namesDefined books → (getAllBooks books q).isSome) := by
  refine ⟨by simp [namesDefined], ?_, ?_, ?_, ?_⟩
  · intro books p id now h
    cases hn : p.name with
    | none => simpa [addBook, hn] using h
    | some nm =>
      cases hv : jsLt p.pageCount p.readPage with
      | true => simpa [addBook, hn, hv] using h
      | false =>
        rw [addBook_eq books p id now nm hn hv]
        intro b hb
        rcases List.mem_append.mp hb with h1 | h2
        · exact h b h1
        · rw [List.mem_singleton.mp h2]; simp [newBookOf]
  · intro books id p now h
    by_cases hex : books.any (fun b => b.id = id) = true
    · cases hn : p.name with
      | none => simpa [editBookById, hex, hn] using h
      | some nm =>
        cases hv : jsLt p.pageCount p.readPage with
        | true => simpa [editBookById, hex, hn, hv] using h
        | false =>
          simp only [editBookById, hex, if_true, hn, hv, Bool.false_eq_true, if_false]
          intro b hb
          rcases mem_replaceFirst books id (updatedBook p nm now) b hb with h1 | ⟨a, _, hfa⟩
          · exact h b h1
          · rw [hfa]; simp [updatedBook]
    · have hex2 : books.any (fun b => b.id = id) = false := by
        simpa using hex
      simpa [editBookById, hex2] using h
  · intro books id h b hb
    exact h b (mem_delete books id b hb)
  · intro books q h
    obtain ⟨qn, qr, qf⟩ := q
    cases qn with
    | none => rfl
    | some pat => simp [getAllBooks, filterByName_eq books pat h]

/-- Witness for C10 at a concrete collection and operation inputs. -/
theorem names_defined_invariant_witness :
    namesDefined (addBook [sampleBook] samplePayload "idB" 7).2 ∧
    namesDefined (editBookById [sampleBook] "idA" samplePayload 8).2 ∧
    namesDefined (deleteBookById [sampleBook] "idA").2 ∧
    (getAllBooks [sampleBook] { name := some "b", reading := none, finished := none }).isSome :=
  ⟨names_defined_invariant.2.1 [sampleBook] samplePayload "idB" 7 (by decide),
   names_defined_invariant.2.2.1 [sampleBook] "idA" samplePayload 8 (by decide),
   names_defined_invariant.2.2.2.1 [sampleBook] "idA" (by decide),
   names_defined_invariant.2.2.2.2 [sampleBook]
     { name := some "b", reading := none, finished := none } (by decide)⟩

end Bookshelf
